import Mathlib

/-!
Verification of the TopChef job-dispatch broker (src/topchef/api_server.py)
against its natural-language specification.

The data model (Service, Job) and the route handlers of api_server.py are
shallowly embedded below. Components that the routes call but whose code is
in models.py (which is not part of the sources here) are modelled from the
specification; each such definition carries a doc comment beginning with
the words Modelled from the spec.
Timestamps are Nat, identifiers are Nat, JSON values are the Json type,
and JSON-schema validation is an external capability passed in as a
function returning the list of violations.
-/

/-- A JSON value: the parameters, results and schema documents are opaque
JSON blobs to the broker. -/
inductive Json where
  | null
  | bool (b : Bool)
  | num (n : Int)
  | str (s : String)
  | arr (elems : List Json)
  | obj (fields : List (String × Json))

/-- Job lifecycle states, from the state machine of the spec and the
models used by api_server.py. -/
inductive JobStatus where
  | registered
  | working
  | complete
  | error
deriving DecidableEq

/-- A registered worker contract (the Service record of the data model). -/
structure Service where
  id : Nat
  name : String
  description : String
  job_registration_schema : Json
  job_result_schema : Option Json
  last_heartbeat : Nat
  heartbeat_timeout : Nat

/-- A unit of work submitted against a Service (the Job record). -/
structure Job where
  id : Nat
  service_id : Nat
  status : JobStatus
  parameters : Json
  result : Option Json
  date_submitted : Nat
  date_finished : Option Nat

/-- The record store: the two persisted record sets, as committed. -/
structure Store where
  services : List Service
  jobs : List Job

/-- session.query(Service).filter_by(id=i).first() -/
def findService (st : Store) (i : Nat) : Option Service :=
  st.services.find? (fun s => s.id == i)

/-- session.query(Job).filter_by(id=i).first() -/
def findJob (st : Store) (i : Nat) : Option Job :=
  st.jobs.find? (fun j => j.id == i)

/-- Committing an updated Service row (single-row update keyed by id). -/
def setService (st : Store) (svc : Service) : Store :=
  { st with services := st.services.map (fun s => if s.id == svc.id then svc else s) }

/-- Committing an updated Job row (single-row update keyed by id). -/
def setJob (st : Store) (j : Job) : Store :=
  { st with jobs := st.jobs.map (fun x => if x.id == j.id then j else x) }

/-- Outcome of one Flask route handler: an HTTP response with a status
code, the handler falling off the end (the view returns None), or an
unhandled Python exception escaping the handler. -/
inductive HandlerResult where
  | response (code : Nat)
  | noReturn
  | pyError (msg : String)
deriving DecidableEq

/-- Number of percent-s conversion specifiers in a Python format string. -/
def countSpecifiers : List Char → Nat
  | [] => 0
  | '%' :: 's' :: rest => 1 + countSpecifiers rest
  | _ :: rest => countSpecifiers rest

/-- Python percent-formatting: applying a format string to nargs supplied
values raises TypeError when the count of conversion specifiers differs
from the count of supplied values. -/
def pyFormat (fmt : String) (nargs : Nat) : Except String Unit :=
  if countSpecifiers fmt.data = nargs then Except.ok ()
  else Except.error "TypeError: not enough arguments for format string"

/-- Modelled from the spec: Service.heartbeat of models.py (models.py is
not among the sources); it sets last_heartbeat to the current time. -/
def Service.heartbeat (service : Service) (now : Nat) : Service :=
  { service with last_heartbeat := now }

/-- The legal job state transitions of the lifecycle state machine:
REGISTERED to WORKING, WORKING to COMPLETE or ERROR, REGISTERED to ERROR. -/
def legalTransition : JobStatus → JobStatus → Bool
  | JobStatus.registered, JobStatus.working => true
  | JobStatus.working, JobStatus.complete => true
  | JobStatus.working, JobStatus.error => true
  | JobStatus.registered, JobStatus.error => true
  | _, _ => false

/-- Failures of the lifecycle update operation. -/
inductive UpdateError where
  | invalidTransition
  | validation (violations : List String)
deriving DecidableEq

/-- Modelled from the spec: the Job Lifecycle Engine operation
update(job, new_status, result) of models.py (not among the sources).
It fails with InvalidTransitionError when new_status is not a legal
successor of job.status; on a transition to COMPLETE it fails with
ValidationError when the result does not validate against the owning
Service job_result_schema (when defined); on success it sets the status,
stores the result if supplied, and sets date_finished on a terminal
transition. -/
def Job.update (validate : Json → Json → List String) (resultSchema : Option Json)
    (job : Job) (new_status : JobStatus) (result : Option Json) (now : Nat) :
    Except UpdateError Job :=
  if legalTransition job.status new_status then
    if new_status = JobStatus.complete then
      match resultSchema with
      | some schema =>
        let violations := validate schema (result.getD Json.null)
        if violations.isEmpty then
          Except.ok { job with
                      status := new_status,
                      result := Option.orElse result (fun _ => job.result),
                      date_finished := some now }
        else Except.error (UpdateError.validation violations)
      | none =>
        Except.ok { job with
                    status := new_status,
                    result := Option.orElse result (fun _ => job.result),
                    date_finished := some now }
    else
      Except.ok { job with
                  status := new_status,
                  result := Option.orElse result (fun _ => job.result),
                  date_finished :=
                    if new_status = JobStatus.error then some now
                    else job.date_finished }
  else Except.error UpdateError.invalidTransition

/-- Modelled from the spec: the Job Lifecycle Engine operation
create(service, parameters) of models.py (not among the sources). It
validates the parameters against service.job_registration_schema, fails
with ValidationError carrying the violations when invalid, and otherwise
yields a Job in REGISTERED with date_submitted set to now. -/
def createJob (validate : Json → Json → List String) (service : Service)
    (parameters : Json) (new_id : Nat) (now : Nat) : Except (List String) Job :=
  let violations := validate service.job_registration_schema parameters
  if violations.isEmpty then
    Except.ok { id := new_id, service_id := service.id,
                status := JobStatus.registered, parameters := parameters,
                result := none, date_submitted := now, date_finished := none }
  else Except.error violations

/-- POST /services. The marshmallow deserializer lives in models.py, so its
outcome is taken as an input: either the loaded Service or the error list.
On errors the handler returns 400 before session.add; on IntegrityError at
commit it logs (logger-call style, two specifiers, two arguments), rolls
back and returns 400. -/
def register_service (st : Store) (loadResult : Except (List String) Service)
    (commitOk : Bool) : HandlerResult × Store :=
  match loadResult with
  | Except.error _ => (HandlerResult.response 400, st)
  | Except.ok new_service =>
    if commitOk then
      (HandlerResult.response 201, { st with services := st.services ++ [new_service] })
    else
      match pyFormat "case_number: %s; message: %s" 2 with
      | Except.ok _ => (HandlerResult.response 400, st)
      | Except.error e => (HandlerResult.pyError e, st)

/-- GET /services/service_id. The source assigns
service.file_manager = FILE_MANAGER before its None check, so a missing
Service raises AttributeError on None rather than reaching the 404 branch. -/
def get_service_data (st : Store) (service_id : Nat) : HandlerResult × Store :=
  match findService st service_id with
  | none =>
    (HandlerResult.pyError "AttributeError: NoneType object has no attribute file_manager", st)
  | some _ => (HandlerResult.response 200, st)

/-- PATCH /services/service_id. Looks up the Service (404 when absent),
calls Service.heartbeat, commits, and returns 200 with a timestamp message
in both branches of the request.json test. -/
def heartbeat (st : Store) (service_id : Nat) (now : Nat) (hasJsonBody : Bool) :
    HandlerResult × Store :=
  match findService st service_id with
  | none => (HandlerResult.response 404, st)
  | some service =>
    let st1 := setService st (Service.heartbeat service now)
    if hasJsonBody then (HandlerResult.response 200, st1)
    else (HandlerResult.response 200, st1)

/-- POST /services/service_id/jobs. Looks up the Service (404 when absent),
creates the Job through the Lifecycle Engine (400 on validation errors,
before session.add), commits; on IntegrityError the logging call applies a
two-specifier format string to a single value and raises TypeError before
the rollback and the 400 response are reached. -/
def request_job (validate : Json → Json → List String) (st : Store)
    (service_id : Nat) (parameters : Json) (new_id : Nat) (now : Nat)
    (commitOk : Bool) : HandlerResult × Store :=
  match findService st service_id with
  | none => (HandlerResult.response 404, st)
  | some service =>
    match createJob validate service parameters new_id now with
    | Except.error _ => (HandlerResult.response 400, st)
    | Except.ok job =>
      if commitOk then
        (HandlerResult.response 201, { st with jobs := st.jobs ++ [job] })
      else
        match pyFormat "case_number: %s, message: %s" 1 with
        | Except.ok _ => (HandlerResult.response 400, st)
        | Except.error e => (HandlerResult.pyError e, st)

/-- The body of PUT /services/service_id/jobs/job_id after both existence
checks pass: the deserializer errors are discarded by the source, the
lifecycle update runs against the owning Service result schema with no
error handling around it (a failure escapes the route), and a successful
commit is followed by no return at all (the view yields None). The
service_id of the URL plays no part here. -/
def continue_update (validate : Json → Json → List String) (st : Store)
    (job : Job) (new_status : JobStatus) (result : Option Json) (now : Nat)
    (commitOk : Bool) : HandlerResult × Store :=
  let resultSchema := (findService st job.service_id).bind (fun s => s.job_result_schema)
  match Job.update validate resultSchema job new_status result now with
  | Except.error _ =>
    (HandlerResult.pyError "unhandled lifecycle failure escapes the route", st)
  | Except.ok updated =>
    if commitOk then (HandlerResult.noReturn, setJob st updated)
    else
      match pyFormat "case_number: %s, message: %s" 1 with
      | Except.ok _ => (HandlerResult.response 400, st)
      | Except.error e => (HandlerResult.pyError e, st)

/-- PUT /services/service_id/jobs/job_id: 404 when the Service is unknown,
404 when the Job is unknown, then the ownership-independent continuation. -/
def update_job_results (validate : Json → Json → List String) (st : Store)
    (service_id job_id : Nat) (new_status : JobStatus) (result : Option Json)
    (now : Nat) (commitOk : Bool) : HandlerResult × Store :=
  match findService st service_id with
  | none => (HandlerResult.response 404, st)
  | some _ =>
    match findJob st job_id with
    | none => (HandlerResult.response 404, st)
    | some job => continue_update validate st job new_status result now commitOk

/-- Strict queue order on jobs: earlier date_submitted first, ties broken
by the identifier (creation order). -/
def olderThan (a b : Job) : Bool :=
  decide (a.date_submitted < b.date_submitted) ||
    (decide (a.date_submitted = b.date_submitted) && decide (a.id < b.id))

/-- The oldest job of a list under olderThan (the head wins full ties). -/
def oldestJob : List Job → Option Job
  | [] => none
  | j :: js =>
    match oldestJob js with
    | none => some j
    | some k => if olderThan k j then some k else some j

/-- The REGISTERED jobs owned by a service: its queue. -/
def queuedJobs (st : Store) (service_id : Nat) : List Job :=
  st.jobs.filter (fun j => j.service_id == service_id && j.status == JobStatus.registered)

/-- Modelled from the spec: claim_next(service) of the Dispatch
Coordinator, which does not appear among the sources. It returns the
oldest REGISTERED Job owned by the service (ordered by date_submitted,
ties broken by identifier), transitioning it to WORKING, and returns none
when the queue is empty. -/
def claim_next (st : Store) (service : Service) : Option Job × Store :=
  match oldestJob (queuedJobs st service.id) with
  | none => (none, st)
  | some j =>
    let claimed := { j with status := JobStatus.working }
    (some claimed, setJob st claimed)

/-- Modelled from the spec: poll(service_id) of the Dispatch Coordinator,
which does not appear among the sources. It looks up the Service
(NotFoundError when absent), refreshes its heartbeat, then calls
claim_next. -/
def poll (st : Store) (service_id : Nat) (now : Nat) :
    Except Unit (Option Job) × Store :=
  match findService st service_id with
  | none => (Except.error (), st)
  | some service =>
    let refreshed := Service.heartbeat service now
    let st1 := setService st refreshed
    let r := claim_next st1 refreshed
    (Except.ok r.1, r.2)

/-- A concrete instantiation of the external SchemaValidator capability,
supporting the required keyword of JSON schema: every key listed under
required must be present in the object being validated. -/
def jsonHasKey (fields : List (String × Json)) (k : String) : Bool :=
  fields.any (fun f => f.1 == k)

/-- Validates a value against the required keys of a schema document,
returning the list of violations. -/
def checkRequired (schema value : Json) : List String :=
  match schema with
  | Json.obj schemaFields =>
    match schemaFields.find? (fun f => f.1 == "required") with
    | some (_, Json.arr keys) =>
      keys.foldr (fun k acc =>
        match k with
        | Json.str s =>
          match value with
          | Json.obj vfields =>
            if jsonHasKey vfields s then acc
            else ("missing required property " ++ s) :: acc
          | _ => ("missing required property " ++ s) :: acc
        | _ => acc) []
    | _ => []
  | _ => []

-- Concrete fixtures used by witnesses and counterexamples.

/-- A service with identifier 1 and no result schema. -/
def svcA : Service :=
  { id := 1, name := "alpha", description := "first service",
    job_registration_schema := Json.null, job_result_schema := none,
    last_heartbeat := 0, heartbeat_timeout := 30 }

/-- A service with identifier 2. -/
def svcB : Service :=
  { id := 2, name := "beta", description := "second service",
    job_registration_schema := Json.null, job_result_schema := none,
    last_heartbeat := 0, heartbeat_timeout := 30 }

/-- A schema document requiring the key answer. -/
def schemaReq : Json :=
  Json.obj [("type", Json.str "object"), ("required", Json.arr [Json.str "answer"])]

/-- A service with identifier 1 whose job_result_schema requires answer. -/
def svcC : Service :=
  { id := 1, name := "gamma", description := "service with result schema",
    job_registration_schema := Json.null, job_result_schema := some schemaReq,
    last_heartbeat := 0, heartbeat_timeout := 30 }

/-- A REGISTERED job with identifier 10 owned by service 1. -/
def jobA : Job :=
  { id := 10, service_id := 1, status := JobStatus.registered,
    parameters := Json.null, result := none, date_submitted := 0,
    date_finished := none }

/-- A REGISTERED job with identifier 10 owned by service 2. -/
def jobB : Job :=
  { id := 10, service_id := 2, status := JobStatus.registered,
    parameters := Json.null, result := none, date_submitted := 0,
    date_finished := none }

/-- A WORKING job with identifier 10 owned by service 1. -/
def jobC : Job :=
  { id := 10, service_id := 1, status := JobStatus.working,
    parameters := Json.null, result := none, date_submitted := 0,
    date_finished := none }

/-- A store holding services 1 and 2 and a job owned by service 2. -/
def st1 : Store := { services := [svcA, svcB], jobs := [jobB] }

/-- A store holding the result-schema service and its WORKING job. -/
def st4 : Store := { services := [svcC], jobs := [jobC] }

/-- A validator accepting exactly the null value. -/
def vNull : Json → Json → List String := fun _ p =>
  match p with
  | Json.null => []
  | _ => ["parameters do not validate"]

-- Helper lemmas shared by the claim theorems.

/-- A service returned by findService carries the looked-up identifier. -/
theorem findService_id {st : Store} {i : Nat} {s : Service}
    (h : findService st i = some s) : s.id = i := by
  have h2 : st.services.find? (fun s => s.id == i) = some s := h
  have h3 := List.find?_some h2
  simpa using h3

/-- A job returned by findJob carries the looked-up identifier. -/
theorem findJob_id {st : Store} {i : Nat} {j : Job}
    (h : findJob st i = some j) : j.id = i := by
  have h2 : st.jobs.find? (fun j => j.id == i) = some j := h
  have h3 := List.find?_some h2
  simpa using h3

/-- Replacing the row that find? located makes find? return the
replacement. -/
theorem find?_service_set (svc : Service) :
    ∀ (l : List Service) (s0 : Service),
      l.find? (fun s => s.id == svc.id) = some s0 →
      (l.map (fun s => if s.id == svc.id then svc else s)).find?
        (fun s => s.id == svc.id) = some svc := by
  intro l
  induction l with
  | nil => intro s0 h; simp at h
  | cons a as ih =>
    intro s0 h
    by_cases ha : a.id = svc.id
    · have hab : (a.id == svc.id) = true := by simp [ha]
      simp only [List.map_cons, hab, if_true]
      exact List.find?_cons_of_pos _ (by simp)
    · have hab : (a.id == svc.id) = false := by simp [ha]
      rw [List.find?_cons_of_neg _ (by simp [ha])] at h
      simp only [List.map_cons, hab, Bool.false_eq_true, if_false]
      rw [List.find?_cons_of_neg _ (by simp [ha])]
      exact ih s0 h

/-- setService leaves the job table untouched. -/
theorem queuedJobs_setService (st : Store) (svc : Service) (i : Nat) :
    queuedJobs (setService st svc) i = queuedJobs st i := rfl

/-- The queue order in propositional form. -/
theorem olderThan_true_iff (a b : Job) : olderThan a b = true ↔
    a.date_submitted < b.date_submitted ∨
      (a.date_submitted = b.date_submitted ∧ a.id < b.id) := by
  simp [olderThan]

/-- Negation of the queue order in propositional form. -/
theorem olderThan_false_iff (a b : Job) : olderThan a b = false ↔
    b.date_submitted < a.date_submitted ∨
      (b.date_submitted = a.date_submitted ∧ b.id ≤ a.id) := by
  simp only [olderThan, Bool.or_eq_false_iff, Bool.and_eq_false_iff,
    decide_eq_false_iff_not]
  constructor
  · intro h
    omega
  · intro h
    constructor
    · omega
    · by_cases hd : a.date_submitted = b.date_submitted
      · right; simp [decide_eq_false_iff_not]; omega
      · left; simp [hd]

/-- No job is strictly older than itself. -/
theorem olderThan_irrefl (a : Job) : olderThan a a = false := by
  rw [olderThan_false_iff]; omega

/-- The queue order is asymmetric. -/
theorem olderThan_asymm {a b : Job} (h : olderThan a b = true) :
    olderThan b a = false := by
  rw [olderThan_true_iff] at h
  rw [olderThan_false_iff]
  omega

/-- Not-older is transitive. -/
theorem olderThan_chain {a b c : Job} (hab : olderThan a b = false)
    (hbc : olderThan b c = false) : olderThan a c = false := by
  rw [olderThan_false_iff] at hab hbc ⊢
  omega

/-- oldestJob yields none only on the empty list. -/
theorem oldestJob_eq_none : ∀ (l : List Job), oldestJob l = none → l = [] := by
  intro l h
  cases l with
  | nil => rfl
  | cons a as =>
    exfalso
    cases hk : oldestJob as with
    | none => simp [oldestJob, hk] at h
    | some k =>
      by_cases ho : olderThan k a = true <;> simp [oldestJob, hk, ho] at h

/-- oldestJob yields an element of the list. -/
theorem oldestJob_mem : ∀ (l : List Job) (j : Job), oldestJob l = some j → j ∈ l := by
  intro l
  induction l with
  | nil => intro j h; simp [oldestJob] at h
  | cons a as ih =>
    intro j h
    cases hk : oldestJob as with
    | none =>
      simp only [oldestJob, hk] at h
      simp at h
      simp [h]
    | some k =>
      simp only [oldestJob, hk] at h
      by_cases ho : olderThan k a = true
      · rw [if_pos ho] at h
        have hkj : k = j := by simpa using h
        exact hkj ▸ List.mem_cons_of_mem a (ih k hk)
      · rw [if_neg ho] at h
        have : a = j := by simpa using h
        simp [← this]

/-- No list element is strictly older than the job oldestJob yields. -/
theorem oldestJob_minimal : ∀ (l : List Job) (j : Job), oldestJob l = some j →
    ∀ x ∈ l, olderThan x j = false := by
  intro l
  induction l with
  | nil => intro j h; simp [oldestJob] at h
  | cons a as ih =>
    intro j h x hx
    cases hk : oldestJob as with
    | none =>
      have hnil := oldestJob_eq_none as hk
      subst hnil
      simp only [oldestJob, hk] at h
      have : a = j := by simpa using h
      subst this
      have : x = a := by simpa using hx
      subst this
      exact olderThan_irrefl x
    | some k =>
      simp only [oldestJob, hk] at h
      by_cases ho : olderThan k a = true
      · rw [if_pos ho] at h
        have hkj : k = j := by simpa using h
        subst hkj
        rcases List.mem_cons.mp hx with rfl | hxs
        · exact olderThan_asymm ho
        · exact ih k hk x hxs
      · rw [if_neg ho] at h
        have haj : a = j := by simpa using h
        subst haj
        have ho' : olderThan k a = false := by
          cases hol : olderThan k a
          · rfl
          · exact absurd hol ho
        rcases List.mem_cons.mp hx with rfl | hxs
        · exact olderThan_irrefl x
        · exact olderThan_chain (ih k hk x hxs) ho'

/-- A claimed (WORKING) replacement never joins an empty queue. -/
theorem filter_claim_nil (sid : Nat) (jw : Job) (hw : jw.status = JobStatus.working) :
    ∀ (l : List Job),
      l.filter (fun x => x.service_id == sid && x.status == JobStatus.registered) = [] →
      (l.map (fun x => if x.id == jw.id then jw else x)).filter
        (fun x => x.service_id == sid && x.status == JobStatus.registered) = [] := by
  intro l
  induction l with
  | nil => intro _; simp
  | cons a as ih =>
    intro h
    rw [List.filter_cons] at h
    by_cases hpa : (a.service_id == sid && a.status == JobStatus.registered) = true
    · rw [if_pos hpa] at h
      exact absurd h (by simp)
    · rw [if_neg hpa] at h
      simp only [List.map_cons, List.filter_cons]
      by_cases hid : (a.id == jw.id) = true
      · rw [if_pos hid]
        have hjw : (jw.service_id == sid && jw.status == JobStatus.registered) = false := by
          simp [hw]
        rw [hjw]
        simp only [Bool.false_eq_true, if_false]
        exact ih h
      · rw [if_neg hid]
        rw [if_neg hpa]
        exact ih h

/-- Claiming the single queued job empties the queue. -/
theorem filter_claim_single (sid : Nat) (j : Job) :
    ∀ (l : List Job),
      l.filter (fun x => x.service_id == sid && x.status == JobStatus.registered) = [j] →
      (l.map (fun x => if x.id == j.id then { j with status := JobStatus.working } else x)).filter
        (fun x => x.service_id == sid && x.status == JobStatus.registered) = [] := by
  intro l
  induction l with
  | nil => intro h; simp at h
  | cons a as ih =>
    intro h
    rw [List.filter_cons] at h
    by_cases hpa : (a.service_id == sid && a.status == JobStatus.registered) = true
    · rw [if_pos hpa] at h
      have haj : a = j := by
        have := List.head_eq_of_cons_eq h
        exact this
      have htail : as.filter (fun x => x.service_id == sid && x.status == JobStatus.registered) = [] := by
        have := List.tail_eq_of_cons_eq h
        exact this
      simp only [List.map_cons, List.filter_cons]
      have hid : (a.id == j.id) = true := by simp [haj]
      rw [if_pos hid]
      have hjw : ((({ j with status := JobStatus.working } : Job).service_id == sid) &&
          (({ j with status := JobStatus.working } : Job).status == JobStatus.registered)) = false := by
        simp
      rw [hjw]
      simp only [Bool.false_eq_true, if_false]
      exact filter_claim_nil sid { j with status := JobStatus.working } rfl as htail
    · rw [if_neg hpa] at h
      simp only [List.map_cons, List.filter_cons]
      by_cases hid : (a.id == j.id) = true
      · rw [if_pos hid]
        have hjw : ((({ j with status := JobStatus.working } : Job).service_id == sid) &&
            (({ j with status := JobStatus.working } : Job).status == JobStatus.registered)) = false := by
          simp
        rw [hjw]
        simp only [Bool.false_eq_true, if_false]
        exact ih h
      · rw [if_neg hid]
        rw [if_neg hpa]
        exact ih h

/-- Claim C10: register_service is atomic on failure. When the deserializer
reports errors the handler answers 400 before the new Service reaches the
session, and when the commit raises an integrity violation the session is
rolled back; in both cases the record store is exactly what it was. -/
theorem register_service_failure_atomic (st : Store)
    (loadResult : Except (List String) Service) (commitOk : Bool) :
    (∀ errs, loadResult = Except.error errs →
      register_service st loadResult commitOk = (HandlerResult.response 400, st)) ∧
    (∀ svc, loadResult = Except.ok svc → commitOk = false →
      register_service st loadResult commitOk = (HandlerResult.response 400, st)) := by
  constructor
  · intro errs h
    subst h
    rfl
  · intro svc h hc
    subst h
    subst hc
    rfl

/-- Witness for C10 at a concrete failing load and a concrete failing
commit. -/
theorem register_service_failure_atomic_witness :
    register_service { services := [], jobs := [] } (Except.error ["bad payload"]) true =
        (HandlerResult.response 400, { services := [], jobs := [] }) ∧
    register_service { services := [], jobs := [] } (Except.ok svcA) false =
        (HandlerResult.response 400, { services := [], jobs := [] }) :=
  ⟨(register_service_failure_atomic { services := [], jobs := [] }
      (Except.error ["bad payload"]) true).1 ["bad payload"] rfl,
   (register_service_failure_atomic { services := [], jobs := [] }
      (Except.ok svcA) false).2 svcA rfl rfl⟩

/-- Claim C5: looking up an unknown service identifier does not produce the
404 response; the handler dereferences the query result before its None
check and raises AttributeError, while a known identifier yields 200. -/
theorem get_service_data_unknown_crashes :
    get_service_data { services := [], jobs := [] } 1 =
      (HandlerResult.pyError "AttributeError: NoneType object has no attribute file_manager",
       { services := [], jobs := [] }) ∧
    get_service_data { services := [svcA], jobs := [] } 1 =
      (HandlerResult.response 200, { services := [svcA], jobs := [] }) :=
  ⟨rfl, rfl⟩

/-- Claim C6: a fully valid update request (service and owning job exist,
REGISTERED to WORKING, commit succeeds) does not yield HTTP 200 with the
updated representation: the route body ends without a return, so the view
yields None after the commit has already persisted the transition. -/
theorem update_job_results_success_returns_nothing :
    update_job_results (fun _ _ => []) { services := [svcA], jobs := [jobA] } 1 10
        JobStatus.working none 7 true =
      (HandlerResult.noReturn,
       { services := [svcA], jobs := [{ jobA with status := JobStatus.working }] }) := by
  rfl

/-- Claim C9: a job-creation request whose commit raises an integrity
violation crashes the handler: the logging call applies a format string
with two conversion specifiers to a single value and raises TypeError
before the rollback and the structured 400 response are reached. -/
theorem request_job_integrity_crash :
    request_job (fun _ _ => []) { services := [svcA], jobs := [] } 1 Json.null 10 7 false =
      (HandlerResult.pyError "TypeError: not enough arguments for format string",
       { services := [svcA], jobs := [] }) := by
  rfl

/-- Claim C7: heartbeat on an unknown service identifier yields 404 and
changes nothing; on a known service it persists last_heartbeat = now and
answers 200. -/
theorem heartbeat_spec (st : Store) (sid now : Nat) (hasJson : Bool) :
    (findService st sid = none →
      heartbeat st sid now hasJson = (HandlerResult.response 404, st)) ∧
    (∀ svc, findService st sid = some svc →
      (heartbeat st sid now hasJson).1 = HandlerResult.response 200 ∧
      findService (heartbeat st sid now hasJson).2 sid =
        some (Service.heartbeat svc now)) := by
  constructor
  · intro h
    simp only [heartbeat, h]
  · intro svc h
    have hid : svc.id = sid := findService_id h
    subst hid
    constructor
    · simp only [heartbeat, h]
      cases hasJson <;> rfl
    · simp only [heartbeat, h]
      have hfind : st.services.find?
          (fun s => s.id == (Service.heartbeat svc now).id) = some svc := h
      have := find?_service_set (Service.heartbeat svc now) st.services svc hfind
      cases hasJson <;> exact this

/-- Witness for C7 on a concrete known service. -/
theorem heartbeat_spec_witness :
    (heartbeat { services := [svcA], jobs := [] } 1 5 false).1 =
        HandlerResult.response 200 ∧
    findService (heartbeat { services := [svcA], jobs := [] } 1 5 false).2 1 =
        some (Service.heartbeat svcA 5) :=
  (heartbeat_spec { services := [svcA], jobs := [] } 1 5 false).2 svcA (by rfl)

/-- Claim C2: the lifecycle update accepts exactly the transitions
REGISTERED to WORKING, WORKING to COMPLETE, WORKING to ERROR and
REGISTERED to ERROR; any other requested transition is rejected with
InvalidTransitionError and, through the route, leaves the stored job and
the whole store unchanged. -/
theorem update_transitions_only_legal
    (validate : Json → Json → List String) (resultSchema : Option Json)
    (job : Job) (ns : JobStatus) (result : Option Json) (now : Nat) :
    (∀ j', Job.update validate resultSchema job ns result now = Except.ok j' →
       (job.status = JobStatus.registered ∧ ns = JobStatus.working) ∨
       (job.status = JobStatus.working ∧ ns = JobStatus.complete) ∨
       (job.status = JobStatus.working ∧ ns = JobStatus.error) ∨
       (job.status = JobStatus.registered ∧ ns = JobStatus.error)) ∧
    (legalTransition job.status ns = false →
       Job.update validate resultSchema job ns result now =
         Except.error UpdateError.invalidTransition ∧
       ∀ (st : Store) (sid jid : Nat) (ck : Bool) (s : Service),
         findService st sid = some s → findJob st jid = some job →
         (update_job_results validate st sid jid ns result now ck).2 = st) := by
  constructor
  · intro j' h
    have hl : legalTransition job.status ns = true := by
      cases hb : legalTransition job.status ns
      · exfalso
        simp [Job.update, hb] at h
      · rfl
    cases hs : job.status <;> cases hn : ns <;> simp_all [legalTransition]
  · intro hl
    have hupd : ∀ (rs : Option Json),
        Job.update validate rs job ns result now =
          Except.error UpdateError.invalidTransition := by
      intro rs
      simp [Job.update, hl]
    refine ⟨hupd resultSchema, ?_⟩
    intro st sid jid ck s hs hj
    simp only [update_job_results, hs, hj]
    simp only [continue_update, hupd]

/-- Witness for C2 at the illegal transition REGISTERED to COMPLETE. -/
theorem update_transitions_only_legal_witness :
    Job.update (fun _ _ => []) none jobA JobStatus.complete none 7 =
        Except.error UpdateError.invalidTransition ∧
    (update_job_results (fun _ _ => []) { services := [svcA], jobs := [jobA] } 1 10
        JobStatus.complete none 7 true).2 = { services := [svcA], jobs := [jobA] } := by
  have h := (update_transitions_only_legal (fun _ _ => []) none jobA
      JobStatus.complete none 7).2 (by rfl)
  exact ⟨h.1, h.2 { services := [svcA], jobs := [jobA] } 1 10 true svcA (by rfl) (by rfl)⟩

/-- Claim C3: against an existing service, job creation succeeds exactly
when the parameters validate against the service registration schema; an
invalid payload yields 400 with the job table unchanged, and a valid
payload persists a REGISTERED job with date_submitted = now. -/
theorem request_job_validation_gate
    (validate : Json → Json → List String) (st : Store) (sid : Nat)
    (parameters : Json) (nid now : Nat) (svc : Service)
    (hs : findService st sid = some svc) :
    (validate svc.job_registration_schema parameters ≠ [] →
       request_job validate st sid parameters nid now true =
         (HandlerResult.response 400, st)) ∧
    (validate svc.job_registration_schema parameters = [] →
       request_job validate st sid parameters nid now true =
         (HandlerResult.response 201,
          { st with jobs := st.jobs ++
              [{ id := nid, service_id := svc.id, status := JobStatus.registered,
                 parameters := parameters, result := none, date_submitted := now,
                 date_finished := none }] })) ∧
    ((request_job validate st sid parameters nid now true).1 =
        HandlerResult.response 201 →
       validate svc.job_registration_schema parameters = []) := by
  refine ⟨?_, ?_, ?_⟩
  · intro hne
    cases hv : validate svc.job_registration_schema parameters with
    | nil => exact absurd hv hne
    | cons a l =>
      simp [request_job, hs, createJob, hv]
  · intro hv
    simp [request_job, hs, createJob, hv]
  · intro h1
    cases hv : validate svc.job_registration_schema parameters with
    | nil => rfl
    | cons a l =>
      exfalso
      simp [request_job, hs, createJob, hv] at h1

/-- Witness for C3 at a concrete valid and a concrete invalid payload. -/
theorem request_job_validation_gate_witness :
    request_job vNull { services := [svcA], jobs := [] } 1 Json.null 10 7 true =
      (HandlerResult.response 201,
       { services := [svcA],
         jobs := [{ id := 10, service_id := 1, status := JobStatus.registered,
                    parameters := Json.null, result := none, date_submitted := 7,
                    date_finished := none }] }) ∧
    request_job vNull { services := [svcA], jobs := [] } 1 (Json.num 3) 10 7 true =
      (HandlerResult.response 400, { services := [svcA], jobs := [] }) :=
  ⟨(request_job_validation_gate vNull { services := [svcA], jobs := [] } 1
      Json.null 10 7 svcA (by rfl)).2.1 (by rfl),
   (request_job_validation_gate vNull { services := [svcA], jobs := [] } 1
      (Json.num 3) 10 7 svcA (by rfl)).1 (by simp [vNull])⟩

/-- The route-level logging call in the IntegrityError branch applies a
two-specifier format string to one value. -/
theorem pyFormat_route_call : pyFormat "case_number: %s, message: %s" 1 =
    Except.error "TypeError: not enough arguments for format string" := by rfl

/-- Claim C1 counterexample: in st1 the job with identifier 10 belongs to
service 2, yet updating it through service 1 is not rejected with an
ownership error: no 403 response is produced and the transition to WORKING
is committed. -/
theorem update_job_results_ownership_counterexample :
    (findJob st1 10).map Job.service_id = some 2 ∧
    (update_job_results (fun _ _ => []) st1 1 10 JobStatus.working none 7 true).1 ≠
        HandlerResult.response 403 ∧
    (findJob (update_job_results (fun _ _ => []) st1 1 10
        JobStatus.working none 7 true).2 10).map Job.status =
      some JobStatus.working := by
  refine ⟨by rfl, ?_, by rfl⟩
  have he : (update_job_results (fun _ _ => []) st1 1 10
      JobStatus.working none 7 true).1 = HandlerResult.noReturn := by rfl
  rw [he]
  intro hc
  exact HandlerResult.noConfusion hc

/-- Claim C1 amended: update_job_results verifies only that the service and
the job exist. It performs no ownership comparison: whenever both exist its
outcome is the ownership-independent continuation, which never consults the
URL service identifier, and it never produces a 403 response. -/
theorem update_job_results_ownership_free
    (validate : Json → Json → List String) (st : Store) (sid jid : Nat)
    (ns : JobStatus) (result : Option Json) (now : Nat) (ck : Bool)
    (s : Service) (j : Job)
    (hs : findService st sid = some s) (hj : findJob st jid = some j) :
    update_job_results validate st sid jid ns result now ck =
      continue_update validate st j ns result now ck ∧
    (update_job_results validate st sid jid ns result now ck).1 ≠
      HandlerResult.response 403 := by
  have heq : update_job_results validate st sid jid ns result now ck =
      continue_update validate st j ns result now ck := by
    simp only [update_job_results, hs, hj]
  refine ⟨heq, ?_⟩
  rw [heq]
  cases hupd : Job.update validate
      ((findService st j.service_id).bind (fun s => s.job_result_schema))
      j ns result now with
  | error e => simp [continue_update, hupd]
  | ok updated =>
    cases ck with
    | true => simp [continue_update, hupd]
    | false => simp [continue_update, hupd, pyFormat_route_call]

/-- Witness for the amended C1: the concrete foreign-owned update of the
counterexample state equals the ownership-independent continuation. -/
theorem update_job_results_ownership_free_witness :
    update_job_results (fun _ _ => []) st1 1 10 JobStatus.working none 7 true =
      continue_update (fun _ _ => []) st1 jobB JobStatus.working none 7 true :=
  (update_job_results_ownership_free (fun _ _ => []) st1 1 10 JobStatus.working
      none 7 true svcA jobB (by rfl) (by rfl)).1

/-- Claim C4 counterexample: service 1 owns job 10 (WORKING) and defines a
result schema requiring the key answer; completing the job with an empty
object leaves the job unchanged but produces no 400 response: the
ValidationError of the engine escapes the route unhandled. -/
theorem update_complete_invalid_result_no_400 :
    checkRequired schemaReq (Json.obj []) ≠ [] ∧
    (update_job_results checkRequired st4 1 10 JobStatus.complete
        (some (Json.obj [])) 7 true).1 ≠ HandlerResult.response 400 ∧
    (update_job_results checkRequired st4 1 10 JobStatus.complete
        (some (Json.obj [])) 7 true).2 = st4 := by
  refine ⟨by decide, ?_, by rfl⟩
  have he : (update_job_results checkRequired st4 1 10 JobStatus.complete
      (some (Json.obj [])) 7 true).1 =
      HandlerResult.pyError "unhandled lifecycle failure escapes the route" := by rfl
  rw [he]
  intro hc
  exact HandlerResult.noConfusion hc

/-- Claim C4 amended: on WORKING to COMPLETE against a defined result
schema, the engine update fails with ValidationError carrying the
violations exactly when the result does not validate, and through the route
the store is left unchanged (the job stays WORKING) although no 400
response is produced; when the result validates, the update succeeds with
status COMPLETE and date_finished set. -/
theorem update_complete_result_validation
    (validate : Json → Json → List String) (schema : Json) (job : Job)
    (res : Json) (now : Nat) (hw : job.status = JobStatus.working) :
    (validate schema res ≠ [] →
       Job.update validate (some schema) job JobStatus.complete (some res) now =
         Except.error (UpdateError.validation (validate schema res)) ∧
       ∀ (st : Store) (sid : Nat) (s : Service) (ck : Bool),
         findService st sid = some s → findJob st job.id = some job →
         (findService st job.service_id).bind (fun s => s.job_result_schema) =
           some schema →
         (update_job_results validate st sid job.id JobStatus.complete
             (some res) now ck).2 = st ∧
         (update_job_results validate st sid job.id JobStatus.complete
             (some res) now ck).1 ≠ HandlerResult.response 400) ∧
    (validate schema res = [] →
       Job.update validate (some schema) job JobStatus.complete (some res) now =
         Except.ok { job with
                     status := JobStatus.complete,
                     result := some res,
                     date_finished := some now }) := by
  constructor
  · intro hne
    have hie : (validate schema res).isEmpty = false := by
      cases hv : validate schema res with
      | nil => exact absurd hv hne
      | cons a l => rfl
    have hupd : ∀ (rs : Option Json), rs = some schema →
        Job.update validate rs job JobStatus.complete (some res) now =
          Except.error (UpdateError.validation (validate schema res)) := by
      intro rs hrs
      subst hrs
      simp [Job.update, hw, legalTransition, hie]
    refine ⟨hupd (some schema) rfl, ?_⟩
    intro st sid s ck hs hj hsch
    have heq : update_job_results validate st sid job.id JobStatus.complete
        (some res) now ck =
        continue_update validate st job JobStatus.complete (some res) now ck := by
      simp only [update_job_results, hs, hj]
    have hcont : continue_update validate st job JobStatus.complete
        (some res) now ck =
        (HandlerResult.pyError "unhandled lifecycle failure escapes the route", st) := by
      simp only [continue_update]
      rw [hupd ((findService st job.service_id).bind (fun s => s.job_result_schema)) hsch]
    rw [heq, hcont]
    exact ⟨rfl, fun hc => HandlerResult.noConfusion hc⟩
  · intro hv
    simp [Job.update, hw, legalTransition, hv, Option.orElse]

/-- Witness for the amended C4: the schema of svcC accepts an object
carrying the key answer, so completing jobC with it succeeds, setting
status COMPLETE and date_finished. -/
theorem update_complete_result_validation_witness :
    Job.update checkRequired (some schemaReq) jobC JobStatus.complete
        (some (Json.obj [("answer", Json.num 42)])) 7 =
      Except.ok { jobC with
                  status := JobStatus.complete,
                  result := some (Json.obj [("answer", Json.num 42)]),
                  date_finished := some 7 } :=
  (update_complete_result_validation checkRequired schemaReq jobC
      (Json.obj [("answer", Json.num 42)]) 7 (by rfl)).2 (by rfl)

/-- Refreshing the heartbeat keeps the service identifier. -/
theorem heartbeat_id (svc : Service) (now : Nat) :
    (Service.heartbeat svc now).id = svc.id := rfl

/-- Claim C8: poll on an unknown service yields NotFoundError; on a known
service it refreshes the heartbeat and claims the oldest REGISTERED job
owned by the service (ties broken by identifier), transitioning it to
WORKING, or yields none on an empty queue; claiming the single queued job
empties the queue, so the following poll yields none. -/
theorem poll_spec (st : Store) (sid now : Nat) :
    (findService st sid = none → poll st sid now = (Except.error (), st)) ∧
    (∀ svc, findService st sid = some svc →
      findService (poll st sid now).2 sid = some (Service.heartbeat svc now) ∧
      (queuedJobs st sid = [] →
        poll st sid now = (Except.ok none, setService st (Service.heartbeat svc now))) ∧
      (∀ j, oldestJob (queuedJobs st sid) = some j →
        (poll st sid now).1 = Except.ok (some { j with status := JobStatus.working }) ∧
        j ∈ queuedJobs st sid ∧
        ∀ x ∈ queuedJobs st sid, olderThan x j = false) ∧
      (∀ j, queuedJobs st sid = [j] →
        (poll (poll st sid now).2 sid now).1 = Except.ok none)) := by
  constructor
  · intro h
    simp only [poll, h]
  · intro svc h
    have hid : svc.id = sid := findService_id h
    subst hid
    have hfind0 : st.services.find?
        (fun s => s.id == (Service.heartbeat svc now).id) = some svc := h
    have hfinds : ∀ st2 : Store,
        st2.services = (setService st (Service.heartbeat svc now)).services →
        findService st2 svc.id = some (Service.heartbeat svc now) := by
      intro st2 hstv
      show st2.services.find? (fun s => s.id == svc.id) =
        some (Service.heartbeat svc now)
      rw [hstv]
      exact find?_service_set (Service.heartbeat svc now) st.services svc hfind0
    have hpoll : poll st svc.id now =
        (Except.ok (claim_next (setService st (Service.heartbeat svc now))
            (Service.heartbeat svc now)).1,
         (claim_next (setService st (Service.heartbeat svc now))
            (Service.heartbeat svc now)).2) := by
      simp only [poll, h]
    refine ⟨?_, ?_, ?_, ?_⟩
    · rw [hpoll]
      apply hfinds
      cases hq : oldestJob (queuedJobs st svc.id) with
      | none =>
        have hcn : claim_next (setService st (Service.heartbeat svc now))
            (Service.heartbeat svc now) =
            (none, setService st (Service.heartbeat svc now)) := by
          simp only [claim_next, queuedJobs_setService, heartbeat_id]
          rw [hq]
        rw [hcn]
      | some j =>
        have hcn : claim_next (setService st (Service.heartbeat svc now))
            (Service.heartbeat svc now) =
            (some { j with status := JobStatus.working },
             setJob (setService st (Service.heartbeat svc now))
               { j with status := JobStatus.working }) := by
          simp only [claim_next, queuedJobs_setService, heartbeat_id]
          rw [hq]
        rw [hcn]
        rfl
    · intro hqe
      have hq : oldestJob (queuedJobs st svc.id) = none := by
        rw [hqe]
        rfl
      have hcn : claim_next (setService st (Service.heartbeat svc now))
          (Service.heartbeat svc now) =
          (none, setService st (Service.heartbeat svc now)) := by
        simp only [claim_next, queuedJobs_setService, heartbeat_id]
        rw [hq]
      rw [hpoll, hcn]
    · intro j hj
      have hcn : claim_next (setService st (Service.heartbeat svc now))
          (Service.heartbeat svc now) =
          (some { j with status := JobStatus.working },
           setJob (setService st (Service.heartbeat svc now))
             { j with status := JobStatus.working }) := by
        simp only [claim_next, queuedJobs_setService, heartbeat_id]
        rw [hj]
      refine ⟨?_, oldestJob_mem _ j hj, oldestJob_minimal _ j hj⟩
      rw [hpoll, hcn]
    · intro j hstq
      have hq : oldestJob (queuedJobs st svc.id) = some j := by
        rw [hstq]
        rfl
      have hcn : claim_next (setService st (Service.heartbeat svc now))
          (Service.heartbeat svc now) =
          (some { j with status := JobStatus.working },
           setJob (setService st (Service.heartbeat svc now))
             { j with status := JobStatus.working }) := by
        simp only [claim_next, queuedJobs_setService, heartbeat_id]
        rw [hq]
      have hp2state : (poll st svc.id now).2 =
          setJob (setService st (Service.heartbeat svc now))
            { j with status := JobStatus.working } := by
        rw [hpoll, hcn]
      have hf2 : findService (poll st svc.id now).2 svc.id =
          some (Service.heartbeat svc now) := by
        rw [hp2state]
        apply hfinds
        rfl
      have hqempty : queuedJobs (poll st svc.id now).2 svc.id = [] := by
        rw [hp2state]
        show (st.jobs.map
            (fun x => if x.id == j.id then { j with status := JobStatus.working } else x)).filter
            (fun x => x.service_id == svc.id && x.status == JobStatus.registered) = []
        exact filter_claim_single svc.id j st.jobs hstq
      have key : ∀ st2 : Store,
          findService st2 svc.id = some (Service.heartbeat svc now) →
          queuedJobs st2 svc.id = [] →
          (poll st2 svc.id now).1 = Except.ok none := by
        intro st2 hf hqe2
        have hq0 : oldestJob (queuedJobs st2 svc.id) = none := by
          rw [hqe2]
          rfl
        have hcn0 : claim_next
            (setService st2 (Service.heartbeat (Service.heartbeat svc now) now))
            (Service.heartbeat (Service.heartbeat svc now) now) =
            (none,
             setService st2 (Service.heartbeat (Service.heartbeat svc now) now)) := by
          simp only [claim_next, queuedJobs_setService, heartbeat_id]
          rw [hq0]
        simp only [poll, hf]
        rw [hcn0]
      exact key (poll st svc.id now).2 hf2 hqempty

/-- Witness for C8 on a concrete one-job queue: the first poll claims the
job, the second poll yields none. -/
theorem poll_spec_witness :
    (poll (poll { services := [svcA], jobs := [jobA] } 1 5).2 1 5).1 =
      Except.ok none :=
  ((poll_spec { services := [svcA], jobs := [jobA] } 1 5).2 svcA
      (by rfl)).2.2.2 jobA (by rfl)
